import Mathlib

/-!
Shallow embedding of the validated domain model of the auth-types
repository (HbarSuite/auth-types).  Each TypeScript class constructor is
embedded as a Lean function returning `Except String α`: `.error msg`
models a thrown `Error(msg)` and `.ok v` models the constructed,
immutable instance.  Inputs are modelled at the types the TypeScript
signatures declare (so `typeof x === 'string'` style guards that cannot
fail on well-typed input are recorded in comments); where a claim is
about dynamically ill-typed values (NaN, fractional numbers, non-numbers,
plain records where a class instance is expected) the input type is
widened to make those values representable.
-/

/-- Tests whether construction succeeded (no error was thrown). -/
def accepts {α : Type} (x : Except String α) : Bool :=
  match x with
  | .ok _ => true
  | .error _ => false

/-- Embedding of the JavaScript guard `s.trim() === ''`: the string
trims to the empty string exactly when every character is whitespace. -/
def isBlank (s : String) : Bool :=
  s.toList.all (fun c => c.isWhitespace)

/-- Embedding of `s.includes('@')`: some character is the at sign. -/
def hasAtSign (s : String) : Bool :=
  s.toList.any (fun c => c == '@')

/- ----------------------------------------------------------------
   User tags model
   src/models/namespaces/credentials/namespaces/user/models/
     auth.credentials.user.models.tags.model.ts (class _Tags)
   ---------------------------------------------------------------- -/

/-- A key/value tag record, used both as raw input and as the stored
shape of the `_Tags` model. -/
structure Tag where
  key : String
  value : String
deriving DecidableEq, Repr

/-- Constructor of the `_Tags` model: rejects keys and values that are
not non-empty strings, trimming whitespace before the emptiness check. -/
def mkTags (tag : Tag) : Except String Tag :=
  -- source: typeof tag.key !== 'string' || tag.key.trim() === ''
  -- (the typeof guard cannot fail on string-typed input)
  if isBlank tag.key then .error "Key must be a non-empty string"
  else if isBlank tag.value then .error "Value must be a non-empty string"
  else .ok { key := tag.key, value := tag.value }

/- ----------------------------------------------------------------
   User entity model
   src/models/namespaces/credentials/namespaces/user/models/
     auth.credentials.user.models.entity.model.ts (class _Entity)
   ---------------------------------------------------------------- -/

/-- The user `IType` enum: WEB2 = 'web2', WEB3 = 'web3'. -/
inductive UserType where
  | web2
  | web3
deriving DecidableEq, Repr

/-- Raw input of the user entity constructor. -/
structure UserEntityInput where
  username : String
  email : String
  created_at : Int
  updated_at : Int
  type : UserType
  tags : List Tag
deriving DecidableEq, Repr

/-- A constructed user entity. -/
structure UserEntity where
  username : String
  email : String
  created_at : Int
  updated_at : Int
  type : UserType
  tags : List Tag
deriving DecidableEq, Repr

/-- The per-tag check inside the user entity constructor: the source
only checks `typeof tag.key === 'string' && typeof tag.value === 'string'`
and returns the tag unchanged, so on string-typed input it always
succeeds (there is no emptiness check here, unlike `mkTags`). -/
def checkTag (t : Tag) : Except String Tag :=
  .ok t

/-- Embedding of `entity.tags.map(tag => ...)` with a possible throw
inside the callback. -/
def mapTags : List Tag → Except String (List Tag)
  | [] => .ok []
  | t :: ts =>
    match checkTag t with
    | .error m => .error m
    | .ok t2 =>
      match mapTags ts with
      | .error m => .error m
      | .ok ts2 => .ok (t2 :: ts2)

/-- Constructor of the user `_Entity` model.  Field checks in source
order: username (trimmed non-empty), email (`includes('@')` only),
created_at (positive number), updated_at (number `>= created_at`),
type (membership in the enum, which cannot fail for enum-typed input),
tags (array of string-keyed records). -/
def mkUserEntity (e : UserEntityInput) : Except String UserEntity :=
  if isBlank e.username then .error "Username must be a non-empty string"
  else if !hasAtSign e.email then .error "Invalid email format"
  else if e.created_at ≤ 0 then .error "Created_at must be a positive number"
  else if e.updated_at < e.created_at then
    .error "Updated_at must be a number greater than or equal to created_at"
  else
    -- Object.values(IType).includes(entity.type) always holds for enum input
    match mapTags e.tags with
    | .error m => .error m
    | .ok ts =>
      .ok { username := e.username, email := e.email,
            created_at := e.created_at, updated_at := e.updated_at,
            type := e.type, tags := ts }

/- ----------------------------------------------------------------
   Web2 login / signup DTOs
   src/models/namespaces/credentials/namespaces/web2/namespaces/dto/models/
     auth.credentials.web2.dto.models.login.model.ts  (class _Login)
     auth.credentials.web2.dto.models.signup.model.ts (class _Signup)
   ---------------------------------------------------------------- -/

/-- A character admissible in the login/signup email regex classes:
the class `[^\s@]` (neither whitespace nor the at sign). -/
def isEmailChar (c : Char) : Bool :=
  !c.isWhitespace && c != '@'

/-- True when the list contains a dot that is followed by at least one
further character. -/
def dotWithSuffix : List Char → Bool
  | [] => false
  | [_] => false
  | c :: rest => (c == '.') || dotWithSuffix rest

/-- True when the list contains a dot that is neither its first nor its
last character. -/
def hasInteriorDot (l : List Char) : Bool :=
  match l with
  | [] => false
  | _ :: t => dotWithSuffix t

/-- Matcher equivalent to the DTO email regex
`^[^\s@]+@[^\s@]+\.[^\s@]+$`: a non-empty local part without whitespace
or at signs, a single at sign, and a domain part without whitespace or
at signs that can be split around a dot into two non-empty pieces. -/
def loginEmailOk (s : String) : Bool :=
  let p := s.toList.span (fun c => c != '@')
  match p.2 with
  | [] => false
  | _ :: domain =>
    !p.1.isEmpty && p.1.all isEmailChar &&
      domain.all isEmailChar && hasInteriorDot domain

/-- Raw input of the login DTO constructor. -/
structure LoginInput where
  username : String
  email : String
  password : String
deriving DecidableEq, Repr

/-- A constructed login DTO. -/
structure Login where
  username : String
  email : String
  password : String
deriving DecidableEq, Repr

/-- Constructor of the `_Login` DTO: trimmed non-empty username, email
matching the regex, password of length at least 8. -/
def mkLogin (l : LoginInput) : Except String Login :=
  if isBlank l.username then .error "Username must be a non-empty string"
  else if !loginEmailOk l.email then .error "Invalid email format"
  else if l.password.length < 8 then
    .error "Password must be a string with at least 8 characters"
  else .ok { username := l.username, email := l.email, password := l.password }

/-- Raw input of the signup DTO constructor. -/
structure SignupInput where
  username : String
  email : String
  password : String
  tags : List Tag
deriving DecidableEq, Repr

/-- A constructed signup DTO. -/
structure Signup where
  username : String
  email : String
  password : String
  tags : List Tag
deriving DecidableEq, Repr

/-- Embedding of `signup.tags.map(tag => new _User.Tags(tag))`: each tag
goes through the `_Tags` constructor, which can throw. -/
def mapSignupTags : List Tag → Except String (List Tag)
  | [] => .ok []
  | t :: ts =>
    match mkTags t with
    | .error m => .error m
    | .ok t2 =>
      match mapSignupTags ts with
      | .error m => .error m
      | .ok ts2 => .ok (t2 :: ts2)

/-- Constructor of the `_Signup` DTO: same username/email/password
checks as `mkLogin`, then a non-empty tags array whose elements are
validated through the `_Tags` constructor. -/
def mkSignup (s : SignupInput) : Except String Signup :=
  if isBlank s.username then .error "Username must be a non-empty string"
  else if !loginEmailOk s.email then .error "Invalid email format"
  else if s.password.length < 8 then
    .error "Password must be a string with at least 8 characters"
  else if s.tags.isEmpty then .error "Tags must be a non-empty array"
  else
    match mapSignupTags s.tags with
    | .error m => .error m
    | .ok ts =>
      .ok { username := s.username, email := s.email,
            password := s.password, tags := ts }

/- ----------------------------------------------------------------
   Token-gate configuration
   src/models/namespaces/configuration/namespaces/web3/namespaces/token-gate/
     auth.configuration.web3.token_gate.namespace.ts
       (classes _Role, _Metadata, _Properties, _Entity)
     models/auth.configuration.web3.token_gate.models.options.model.ts
       (class _Options)
   ---------------------------------------------------------------- -/

/-- A constructed token-gate role (`_Role` instance). -/
structure TokenGateRole where
  tokenId : String
  role : String
deriving DecidableEq, Repr

/-- Constructor of `_Role`: the source guard is
`!role.tokenId || typeof role.tokenId !== 'string'` (and the same for
`role`), so on string-typed input only the empty string - the one falsy
string - is rejected; no trimming is performed. -/
def mkRole (tokenId role : String) : Except String TokenGateRole :=
  if tokenId = "" then .error "tokenId must be a non-empty string"
  else if role = "" then .error "role must be a non-empty string"
  else .ok { tokenId := tokenId, role := role }

/-- Subscription properties attached to token metadata; the `_Metadata`
constructor only checks this is a non-null object. -/
structure TokenGateProperties where
  plan : String
  periodicity : String
deriving DecidableEq, Repr

/-- Token metadata record, used both as raw input and as the stored
shape of the `_Metadata` model. -/
structure TokenGateMetadata where
  name : String
  description : String
  creator : String
  properties : TokenGateProperties
  image : String
deriving DecidableEq, Repr

/-- Constructor of `_Metadata`: name, description, creator and image
must be non-empty strings after trimming; properties must be a non-null
object (which cannot fail for record-typed input). -/
def mkMetadata (m : TokenGateMetadata) : Except String TokenGateMetadata :=
  if isBlank m.name then .error "name must be a non-empty string"
  else if isBlank m.description then .error "description must be a non-empty string"
  else if isBlank m.creator then .error "creator must be a non-empty string"
  else
    -- typeof metadata.properties === 'object' && properties !== null:
    -- always holds for record-typed input
    if isBlank m.image then .error "image must be a non-empty string"
    else .ok { name := m.name, description := m.description,
               creator := m.creator, properties := m.properties,
               image := m.image }

/-- The canonical owned-token record (token-gate `_Entity` shape). -/
structure TokenGateEntity where
  metadata : TokenGateMetadata
  serial_number : Int
  token_id : String
deriving DecidableEq, Repr

/-- A runtime argument of the `_Options` constructor roles array: either
an object built by `new _Role(...)` or a plain record literal that was
never passed through the `_Role` constructor. -/
inductive RoleArg where
  | instRole (r : TokenGateRole)
  | plain (tokenId role : String)
deriving DecidableEq, Repr

/-- The per-element check inside `_Options`:
`if (!(role instanceof _Role)) throw ...` - a plain record is not an
instance of the class, whatever its fields hold. -/
def checkRoleInstance : RoleArg → Except String TokenGateRole
  | .instRole r => .ok r
  | .plain _ _ => .error "Each role must be an instance of _IRole"

/-- Embedding of `options.roles.map(role => ...)` with the instanceof
check throwing inside the callback. -/
def mapRoleArgs : List RoleArg → Except String (List TokenGateRole)
  | [] => .ok []
  | r :: rs =>
    match checkRoleInstance r with
    | .error m => .error m
    | .ok r2 =>
      match mapRoleArgs rs with
      | .error m => .error m
      | .ok rs2 => .ok (r2 :: rs2)

/-- Constructed token-gate options (`_Options` instance). -/
structure TokenGateOptions where
  enabled : Bool
  roles : List TokenGateRole
deriving DecidableEq, Repr

/-- Constructor of `_Options`: `enabled` must be a boolean (cannot fail
for Bool-typed input), `roles` must be a non-empty array, and every
element must be an instance of `_Role`. -/
def mkOptions (enabled : Bool) (roles : List RoleArg) : Except String TokenGateOptions :=
  if roles.isEmpty then .error "roles must be a non-empty array"
  else
    match mapRoleArgs roles with
    | .error m => .error m
    | .ok rs => .ok { enabled := enabled, roles := rs }

/- ----------------------------------------------------------------
   Web3 wallet entity
   src/models/namespaces/credentials/namespaces/web3/models/
     auth.credentials.web3.models.entity.model.ts (class _Entity)
   ---------------------------------------------------------------- -/

/-- Raw input of the wallet entity constructor. -/
structure WalletEntityInput where
  walletId : String
  publicKey : String
  balance : List TokenGateEntity
deriving DecidableEq, Repr

/-- A constructed wallet entity.  `balance` is an `Option` because the
source constructor validates `Array.isArray(entity.balance)` but never
executes `this.balance = entity.balance`, so the declared field remains
undefined (`none`) on every constructed instance. -/
structure WalletEntity where
  walletId : String
  publicKey : String
  balance : Option (List TokenGateEntity)
deriving DecidableEq, Repr

/-- Constructor of the web3 credentials `_Entity`: walletId and
publicKey must be non-empty after trimming; balance must be an array
(cannot fail for list-typed input) but is never assigned to the field. -/
def mkWalletEntity (e : WalletEntityInput) : Except String WalletEntity :=
  if isBlank e.walletId then .error "walletId must be a non-empty string"
  else if isBlank e.publicKey then .error "publicKey must be a non-empty string"
  else
    -- Array.isArray(entity.balance) holds for list-typed input;
    -- the source then ends without assigning this.balance
    .ok { walletId := e.walletId, publicKey := e.publicKey, balance := none }

/- ----------------------------------------------------------------
   Web3 auth request token data
   src/models/namespaces/credentials/namespaces/web3/namespaces/request/
     auth.credentials.web3.request.namespace.ts (class _Data)
   ---------------------------------------------------------------- -/

/-- A character of the regex class `[A-Za-z0-9-_=]` (first and second
token segments). -/
def isSegChar (c : Char) : Bool :=
  c.isAlpha || c.isDigit || c == '-' || c == '_' || c == '='

/-- A character of the regex class `[A-Za-z0-9-_.+/=]` (the tail of the
token after the second segment starts: dots, plus and slash are also
admitted there). -/
def isTailChar (c : Char) : Bool :=
  isSegChar c || c == '.' || c == '+' || c == '/'

/-- Matcher equivalent to the `_Data` token regex
`^[A-Za-z0-9-_=]+\.[A-Za-z0-9-_=]+\.?[A-Za-z0-9-_.+/=]*$`:
a non-empty segment of segment characters, a dot, then a non-empty part
starting with a segment character whose remaining characters are tail
characters.  Because the tail class itself contains the dot and the
regex marks the second dot optional, nothing forces a third segment. -/
def jwtMatch (s : String) : Bool :=
  let p := s.toList.span (fun c => c != '.')
  match p.2 with
  | [] => false
  | _ :: rest =>
    !p.1.isEmpty && p.1.all isSegChar &&
      (match rest with
       | [] => false
       | c :: t => isSegChar c && t.all isTailChar)

/-- A constructed web3 auth token holder (`_Data` instance). -/
structure Web3Data where
  token : String
deriving DecidableEq, Repr

/-- Constructor of `_Data`: the guard `!token || typeof token !== 'string'`
rejects exactly the empty string on string-typed input, then the token
must match the JWT-shaped regex; the token is stored unchanged. -/
def mkData (token : String) : Except String Web3Data :=
  if token = "" then .error "Token must be a non-empty string"
  else if !jwtMatch token then .error "Invalid token format"
  else .ok { token := token }

/-- Splits a character list at every dot (dots removed, empty pieces
kept), the list analogue of splitting a string on the dot separator. -/
def splitDots : List Char → List (List Char)
  | [] => [[]]
  | c :: t =>
    if c = '.' then [] :: splitDots t
    else
      match splitDots t with
      | [] => [[c]]
      | h :: r => (c :: h) :: r

/-- Spec-side predicate, written from the claim wording and not from the
source: the string consists of exactly three dot-separated, non-empty
segments of base64url-alphabet characters. -/
def specThreeSegmentB64 (s : String) : Bool :=
  match splitDots s.toList with
  | [a, b, c] =>
    !a.isEmpty && !b.isEmpty && !c.isEmpty &&
      a.all isSegChar && b.all isSegChar && c.all isSegChar
  | _ => false

/- ----------------------------------------------------------------
   Two-factor auth record
   src/unnamed/part_007 (class _Auth) and
   src/interfaces/namespaces/two-factor/interfaces/
     auth.two_factor.interface.ts (enum IStatus)
   ---------------------------------------------------------------- -/

/-- The `IStatus` string enum: VERIFIED = 'verified',
UNVERIFIED = 'unverified', DISABLED = 'disabled'. -/
inductive TwoFactorStatus where
  | verified
  | unverified
  | disabled
deriving DecidableEq, Repr

/-- The JavaScript `typeof` of an `IStatus` value at runtime: members of
a TypeScript string enum are plain strings, so `typeof` yields
the string tag for strings on every member. -/
def jsTypeofStatus : TwoFactorStatus → String :=
  fun _ => "string"

/-- A constructed two-factor auth record (`_Auth` instance). -/
structure TwoFactorAuth where
  status : TwoFactorStatus
  factorSid : String
  identity : String
  qr_code : String
deriving DecidableEq, Repr

/-- Constructor of `_Auth`: the first guard is
`typeof status !== 'object' || status === null`, then factorSid,
identity and qr_code must be non-empty strings after trimming. -/
def mkTwoFactorAuth (status : TwoFactorStatus)
    (factorSid identity qr_code : String) : Except String TwoFactorAuth :=
  if jsTypeofStatus status ≠ "object" then
    .error "status must be a valid IAuth.ITwoFactor.IStatus object"
  else if isBlank factorSid then .error "factorSid must be a non-empty string"
  else if isBlank identity then .error "identity must be a non-empty string"
  else if isBlank qr_code then .error "qr_code must be a non-empty string"
  else .ok { status := status, factorSid := factorSid,
             identity := identity, qr_code := qr_code }

/- ----------------------------------------------------------------
   Two-factor security code
   src/models/namespaces/two-factor/models/
     auth.two_factor.models.security.model.ts (class _Security)
   ---------------------------------------------------------------- -/

/-- A JavaScript number value: either a finite rational (every finite
double is rational) or NaN. -/
inductive JSNumberVal where
  | finite (q : ℚ)
  | nan
deriving DecidableEq, Repr

/-- A runtime argument of the `_Security` constructor: a number, or any
value whose `typeof` is not the number tag. -/
inductive SecurityInput where
  | number (v : JSNumberVal)
  | nonNumber
deriving DecidableEq, Repr

/-- `Number.isInteger` on a finite value: the rational has denominator
one. -/
def isIntegerQ (q : ℚ) : Bool :=
  q.den == 1

/-- A constructed security record (`_Security` instance). -/
structure Security where
  code_2fa : ℚ
deriving DecidableEq, Repr

/-- Constructor of `_Security`: the single guard is
`typeof code_2fa !== 'number' || isNaN(code_2fa) ||
!Number.isInteger(code_2fa) || code_2fa < 0`, one error message for all
four disjuncts; an accepted code is stored unchanged. -/
def mkSecurity : SecurityInput → Except String Security
  | .nonNumber => .error "code_2fa must be a positive integer"
  | .number .nan => .error "code_2fa must be a positive integer"
  | .number (.finite q) =>
    if !isIntegerQ q then .error "code_2fa must be a positive integer"
    else if q < 0 then .error "code_2fa must be a positive integer"
    else .ok { code_2fa := q }

/- ----------------------------------------------------------------
   Helper lemmas
   ---------------------------------------------------------------- -/

/-- The user entity tag map never throws: every string-typed tag passes
its typeof check unchanged. -/
theorem mapTags_id (l : List Tag) : mapTags l = .ok l := by
  induction l with
  | nil => rfl
  | cons t ts ih => simp [mapTags, checkTag, ih]

/-- Closed form of the user entity constructor once the always-passing
tag map is discharged. -/
theorem mkUserEntity_eq (e : UserEntityInput) :
    mkUserEntity e =
      if isBlank e.username then Except.error "Username must be a non-empty string"
      else if !hasAtSign e.email then Except.error "Invalid email format"
      else if e.created_at ≤ 0 then Except.error "Created_at must be a positive number"
      else if e.updated_at < e.created_at then
        Except.error "Updated_at must be a number greater than or equal to created_at"
      else Except.ok ⟨e.username, e.email, e.created_at, e.updated_at, e.type, e.tags⟩ := by
  simp only [mkUserEntity, mapTags_id]

/- ----------------------------------------------------------------
   Claim theorems
   ---------------------------------------------------------------- -/

/-- C1 (counterexample): the string "aaa.bbb" does not consist of three
dot-separated base64url segments, yet `_Data` construction accepts it
and stores it - the regex makes everything after the second segment
optional, so the claimed universal rejection is false. -/
theorem mkData_accepts_two_segments :
    specThreeSegmentB64 "aaa.bbb" = false ∧
      mkData "aaa.bbb" = Except.ok { token := "aaa.bbb" } :=
  ⟨rfl, rfl⟩

/-- C1 (amended): `_Data` stores every accepted token unchanged,
rejects "not-a-jwt", and accepts "aaa.bbb.ccc"; the universal rejection
of non-three-segment strings does not hold. -/
theorem mkData_spec :
    (∀ s d, mkData s = Except.ok d → d.token = s) ∧
      mkData "not-a-jwt" = Except.error "Invalid token format" ∧
      mkData "aaa.bbb.ccc" = Except.ok { token := "aaa.bbb.ccc" } := by
  refine ⟨?_, rfl, rfl⟩
  intro s d h
  unfold mkData at h
  split_ifs at h with h1 h2
  cases h; rfl

/-- C1 (witness): the preservation part of `mkData_spec` applied at the
accepted token "aaa.bbb.ccc". -/
theorem mkData_spec_witness :
    Web3Data.token { token := "aaa.bbb.ccc" } = "aaa.bbb.ccc" :=
  mkData_spec.1 "aaa.bbb.ccc" { token := "aaa.bbb.ccc" } mkData_spec.2.2

/-- C2 (code bug): the wallet `_Entity` constructor accepts the input
with walletId "w", publicKey "p" and an empty balance array, yet the
constructed object's balance field is never assigned (it stays
undefined, here `none`); indeed no accepted construction ever populates
balance. -/
theorem mkWalletEntity_drops_balance :
    mkWalletEntity { walletId := "w", publicKey := "p", balance := [] } =
        Except.ok { walletId := "w", publicKey := "p", balance := none } ∧
      ∀ e out, mkWalletEntity e = Except.ok out → out.balance = none := by
  refine ⟨rfl, ?_⟩
  intro e out h
  unfold mkWalletEntity at h
  split_ifs at h with h1 h2
  cases h; rfl

/-- C2 (witness): the universal part of `mkWalletEntity_drops_balance`
applied at the concrete accepted input. -/
theorem mkWalletEntity_drops_balance_witness :
    WalletEntity.balance { walletId := "w", publicKey := "p", balance := none } = none :=
  mkWalletEntity_drops_balance.2 { walletId := "w", publicKey := "p", balance := [] }
    { walletId := "w", publicKey := "p", balance := none }
    mkWalletEntity_drops_balance.1

/-- C3 (code bug): constructing the `_Auth` record with the enum status
UNVERIFIED and non-empty factorSid, identity and qr_code throws, because
the guard demands `typeof status === 'object'` while every member of the
string enum `IStatus` is a string at runtime; no enum-typed call can
ever succeed. -/
theorem mkTwoFactorAuth_rejects_enum_status :
    mkTwoFactorAuth TwoFactorStatus.unverified "YF1" "user@example.com" "qr" =
        Except.error "status must be a valid IAuth.ITwoFactor.IStatus object" ∧
      ∀ st f i q, mkTwoFactorAuth st f i q =
        Except.error "status must be a valid IAuth.ITwoFactor.IStatus object" :=
  ⟨rfl, fun _ _ _ _ => rfl⟩

/-- C4 (counterexample): passing the plain record with tokenId "0x1"
and role "member" directly in the roles array is rejected by the
`instanceof _Role` check, although the claim says this construction
succeeds. -/
theorem mkOptions_rejects_plain_role_record :
    mkOptions true [RoleArg.plain "0x1" "member"] =
      Except.error "Each role must be an instance of _IRole" :=
  rfl

/-- C4 (amended): `_Options` with enabled true and an empty roles array
fails with the "non-empty array" error, and with a roles array holding
the `_Role` instance constructed from tokenId "0x1" and role "member"
it succeeds; a plain record in the array is rejected by the instanceof
check rather than accepted. -/
theorem mkOptions_spec :
    mkOptions true [] = Except.error "roles must be a non-empty array" ∧
      mkRole "0x1" "member" = Except.ok { tokenId := "0x1", role := "member" } ∧
      mkOptions true [RoleArg.instRole { tokenId := "0x1", role := "member" }] =
        Except.ok { enabled := true, roles := [{ tokenId := "0x1", role := "member" }] } :=
  ⟨rfl, rfl, rfl⟩

/-- C5 (counterexample): the user entity constructor accepts the email
"joe@" (all other fields valid), although the claim says every email
without an at-separated local and domain part is rejected - the source
only tests `email.includes('@')`. -/
theorem mkUserEntity_accepts_truncated_email :
    mkUserEntity ⟨"john", "joe@", 1, 1, UserType.web2, []⟩ =
      Except.ok ⟨"john", "joe@", 1, 1, UserType.web2, []⟩ :=
  rfl

/-- C5 (amended): the user entity constructor rejects exactly the
emails without an at sign and accepts "john@example.com"; the stricter
local@domain shape, which rejects "joe@" and "@example.com", is
enforced only by the login DTO regex. -/
theorem userEntity_email_spec :
    (∀ e : UserEntityInput, hasAtSign e.email = false →
        accepts (mkUserEntity e) = false) ∧
      accepts (mkUserEntity ⟨"john", "john@example.com", 1, 1, UserType.web2, []⟩) = true ∧
      mkLogin ⟨"john", "joe@", "password123"⟩ =
        Except.error "Invalid email format" ∧
      mkLogin ⟨"john", "@example.com", "password123"⟩ =
        Except.error "Invalid email format" ∧
      accepts (mkLogin ⟨"john", "john@example.com", "password123"⟩) = true := by
  refine ⟨?_, rfl, rfl, rfl, rfl⟩
  intro e h
  rw [mkUserEntity_eq]
  split_ifs with h1 h2 h3 h4 <;> first | rfl | simp [h] at h2

/-- C5 (witness): the rejection part of `userEntity_email_spec` applied
at the concrete email "nodomain" which has no at sign. -/
theorem userEntity_email_spec_witness :
    accepts (mkUserEntity ⟨"john", "nodomain", 1, 1, UserType.web2, []⟩) = false :=
  userEntity_email_spec.1 ⟨"john", "nodomain", 1, 1, UserType.web2, []⟩ rfl

/-- C6 (counterexample): the user entity constructor accepts an input
whose tags list holds the tag with empty key and empty value, storing
it unchanged, although the claim says such inputs are rejected - the
per-tag check in the entity constructor only tests that key and value
are strings. -/
theorem mkUserEntity_accepts_empty_tag :
    mkUserEntity ⟨"john", "john@example.com", 1, 2, UserType.web2, [⟨"", ""⟩]⟩ =
      Except.ok ⟨"john", "john@example.com", 1, 2, UserType.web2, [⟨"", ""⟩]⟩ :=
  rfl

/-- C6 (amended): the user entity constructor stores the tags list
unchanged, accepting empty-string keys and values; the standalone
`_Tags` model constructor is the one that rejects empty keys and
values. -/
theorem userEntity_tags_spec :
    (∀ e out, mkUserEntity e = Except.ok out → out.tags = e.tags) ∧
      mkTags { key := "", value := "v" } = Except.error "Key must be a non-empty string" ∧
      mkTags { key := "k", value := "" } = Except.error "Value must be a non-empty string" ∧
      mkTags { key := "k", value := "v" } = Except.ok { key := "k", value := "v" } := by
  refine ⟨?_, rfl, rfl, rfl⟩
  intro e out h
  rw [mkUserEntity_eq] at h
  split_ifs at h with h1 h2 h3 h4
  cases h; rfl

/-- C6 (witness): the preservation part of `userEntity_tags_spec`
applied at the accepted input with the empty tag. -/
theorem userEntity_tags_spec_witness :
    UserEntity.tags ⟨"john", "john@example.com", 1, 2, UserType.web2, [⟨"", ""⟩]⟩ =
      [(⟨"", ""⟩ : Tag)] :=
  userEntity_tags_spec.1
    ⟨"john", "john@example.com", 1, 2, UserType.web2, [⟨"", ""⟩]⟩
    ⟨"john", "john@example.com", 1, 2, UserType.web2, [⟨"", ""⟩]⟩
    (by rfl)

/-- C7: every accepted user entity has a positive created_at and
updated_at at least created_at, and every input with non-positive
created_at or updated_at below created_at is rejected at construction. -/
theorem userEntity_timestamps_spec :
    (∀ e out, mkUserEntity e = Except.ok out →
        0 < out.created_at ∧ out.created_at ≤ out.updated_at) ∧
      ∀ e : UserEntityInput, e.created_at ≤ 0 ∨ e.updated_at < e.created_at →
        accepts (mkUserEntity e) = false := by
  constructor
  · intro e out h
    rw [mkUserEntity_eq] at h
    split_ifs at h with h1 h2 h3 h4
    cases h
    dsimp
    omega
  · intro e h
    rw [mkUserEntity_eq]
    split_ifs with h1 h2 h3 h4 <;> try rfl
    rcases h with h | h
    · exact absurd h h3
    · exact absurd h h4

/-- C7 (witness): both parts of `userEntity_timestamps_spec` at
concrete inputs - the accepted entity with created_at 1 and updated_at
2 satisfies the invariant, and the input with updated_at 0 below
created_at 5 is rejected. -/
theorem userEntity_timestamps_spec_witness :
    (0 < (1 : Int) ∧ (1 : Int) ≤ 2) ∧
      accepts (mkUserEntity ⟨"john", "john@example.com", 5, 0, UserType.web2, []⟩) = false :=
  ⟨userEntity_timestamps_spec.1 ⟨"john", "john@example.com", 1, 2, UserType.web2, []⟩
      ⟨"john", "john@example.com", 1, 2, UserType.web2, []⟩ (by rfl),
    userEntity_timestamps_spec.2 ⟨"john", "john@example.com", 5, 0, UserType.web2, []⟩
      (Or.inr (by norm_num))⟩

/-- C8: both web2 DTO constructors reject every password shorter than
8 characters, and every accepted login or signup DTO stores a password
of length at least 8. -/
theorem web2_password_min_length :
    (∀ l : LoginInput, l.password.length < 8 → accepts (mkLogin l) = false) ∧
      (∀ s : SignupInput, s.password.length < 8 → accepts (mkSignup s) = false) ∧
      (∀ l out, mkLogin l = Except.ok out → 8 ≤ out.password.length) ∧
      ∀ s out, mkSignup s = Except.ok out → 8 ≤ out.password.length := by
  refine ⟨?_, ?_, ?_, ?_⟩
  · intro l h
    unfold mkLogin
    split_ifs <;> rfl
  · intro s h
    unfold mkSignup
    split_ifs <;> rfl
  · intro l out h
    unfold mkLogin at h
    split_ifs at h with h1 h2 h3
    cases h
    dsimp
    omega
  · intro s out h
    unfold mkSignup at h
    split_ifs at h with h1 h2 h3 h4
    split at h
    · exact Except.noConfusion h
    · cases h
      dsimp
      omega

/-- C8 (witness): the rejection parts of `web2_password_min_length` at
the 5-character password "short", for both the login and the signup
DTO. -/
theorem web2_password_min_length_witness :
    accepts (mkLogin ⟨"john", "john@example.com", "short"⟩) = false ∧
      accepts (mkSignup ⟨"john", "john@example.com", "short", [⟨"k", "v"⟩]⟩) = false :=
  ⟨web2_password_min_length.1 ⟨"john", "john@example.com", "short"⟩ (by decide),
    web2_password_min_length.2.1 ⟨"john", "john@example.com", "short", [⟨"k", "v"⟩]⟩
      (by decide)⟩

/-- C9: `_Security` accepts exactly the non-negative integral numbers,
stores an accepted code unchanged, and rejects NaN, non-number values,
negative numbers and fractional numbers. -/
theorem security_code_spec :
    (∀ n : ℤ, 0 ≤ n →
        mkSecurity (.number (.finite (n : ℚ))) = Except.ok { code_2fa := (n : ℚ) }) ∧
      (∀ v s, mkSecurity v = Except.ok s →
        ∃ n : ℤ, 0 ≤ n ∧ v = .number (.finite (n : ℚ)) ∧ s.code_2fa = (n : ℚ)) ∧
      mkSecurity .nonNumber = Except.error "code_2fa must be a positive integer" ∧
      mkSecurity (.number .nan) = Except.error "code_2fa must be a positive integer" ∧
      (∀ q : ℚ, q < 0 → accepts (mkSecurity (.number (.finite q))) = false) ∧
      ∀ q : ℚ, q.den ≠ 1 → accepts (mkSecurity (.number (.finite q))) = false := by
  refine ⟨?_, ?_, rfl, rfl, ?_, ?_⟩
  · intro n hn
    have h1 : isIntegerQ (n : ℚ) = true := by simp [isIntegerQ]
    have h2 : ¬ ((n : ℚ) < 0) := by
      simpa using not_lt.mpr hn
    simp [mkSecurity, h1, h2]
  · intro v s h
    match v with
    | .nonNumber => exact Except.noConfusion h
    | .number .nan => exact Except.noConfusion h
    | .number (.finite q) =>
      simp only [mkSecurity] at h
      split_ifs at h with hq hneg
      cases h
      have hden : q.den = 1 := by simpa [isIntegerQ] using hq
      have hcast : (q.num : ℚ) = q := (Rat.den_eq_one_iff q).mp hden
      refine ⟨q.num, ?_, ?_, ?_⟩
      · exact Rat.num_nonneg.mpr (not_lt.mp hneg)
      · rw [hcast]
      · exact hcast.symm
  · intro q hq
    simp only [mkSecurity]
    split_ifs <;> rfl
  · intro q hq
    simp only [mkSecurity]
    split_ifs with h1 h2 <;> try rfl
    all_goals
      simp [isIntegerQ] at h1
      exact absurd h1 hq

/-- C9 (witness): the acceptance part of `security_code_spec` at the
concrete codes 0 and 123456, and the rejection part at the concrete
negative code -3. -/
theorem security_code_spec_witness :
    mkSecurity (.number (.finite ((0 : ℤ) : ℚ))) = Except.ok { code_2fa := ((0 : ℤ) : ℚ) } ∧
      mkSecurity (.number (.finite ((123456 : ℤ) : ℚ))) =
        Except.ok { code_2fa := ((123456 : ℤ) : ℚ) } ∧
      accepts (mkSecurity (.number (.finite (-3 : ℚ)))) = false :=
  ⟨security_code_spec.1 0 (by decide),
    security_code_spec.1 123456 (by decide),
    security_code_spec.2.2.2.2.1 (-3 : ℚ) (by norm_num)⟩

/-- C10: the `_Role` constructor accepts arbitrary non-empty strings -
in particular strings of pure whitespace - rejecting exactly the empty
string on each field, whereas the `_Tags`, `_Metadata` and user
`_Entity` constructors trim before their emptiness check and so reject
whitespace-only keys, names and usernames. -/
theorem role_vs_trimming_spec :
    (∀ t r : String, accepts (mkRole t r) = true ↔ t ≠ "" ∧ r ≠ "") ∧
      mkRole " " " " = Except.ok { tokenId := " ", role := " " } ∧
      (∀ tg : Tag, isBlank tg.key = true → accepts (mkTags tg) = false) ∧
      (∀ m : TokenGateMetadata, isBlank m.name = true → accepts (mkMetadata m) = false) ∧
      ∀ e : UserEntityInput, isBlank e.username = true → accepts (mkUserEntity e) = false := by
  refine ⟨?_, rfl, ?_, ?_, ?_⟩
  · intro t r
    unfold mkRole
    split_ifs with h1 h2
    · simp [accepts, h1]
    · simp [accepts, h1, h2]
    · simp [accepts, h1, h2]
  · intro tg h
    unfold mkTags
    split_ifs
    rfl
  · intro m h
    unfold mkMetadata
    split_ifs
    rfl
  · intro e h
    rw [mkUserEntity_eq]
    split_ifs
    rfl

/-- C10 (witness): `role_vs_trimming_spec` applied at concrete
whitespace-only inputs - the role with both fields " " is accepted,
while the tag with key " ", the metadata with name " " and the user
entity with username " " are all rejected. -/
theorem role_vs_trimming_spec_witness :
    (accepts (mkRole " " " ") = true) ∧
      accepts (mkTags ⟨" ", "v"⟩) = false ∧
      accepts (mkMetadata ⟨" ", "d", "c", ⟨"basic", "monthly"⟩, "i"⟩) = false ∧
      accepts (mkUserEntity ⟨" ", "john@example.com", 1, 1, UserType.web2, []⟩) = false :=
  ⟨(role_vs_trimming_spec.1 " " " ").mpr ⟨by decide, by decide⟩,
    role_vs_trimming_spec.2.2.1 ⟨" ", "v"⟩ (by decide),
    role_vs_trimming_spec.2.2.2.1 ⟨" ", "d", "c", ⟨"basic", "monthly"⟩, "i"⟩ (by decide),
    role_vs_trimming_spec.2.2.2.2 ⟨" ", "john@example.com", 1, 1, UserType.web2, []⟩
      (by decide)⟩
